import Mathlib

/-!
Verification development for the Frankenstein decision pipeline and proof ledger.

The Python sources are shallowly embedded: each Python method becomes a Lean
function over explicit state, Python floats (only constants that are
integer multiples of 0.05 occur) become natural numbers of hundredths, and
the SHA-256 digest over the JSON encoding of a record's fields becomes an
abstract function from record data to an abstract hash type (collision
resistance is modelled as injectivity where a claim needs it).
-/

namespace Frankenstein

/-! ## Python string primitives

Executable models of the Python `str` operations the sources use:
`in` (substring test), `replace` (replace all occurrences, left to right,
non-overlapping), `find` (first index or -1), `strip`, `lower`,
`split(sep, 1)` and slicing `s[:i]`. All operate on the underlying
character lists so that they reduce in the kernel. -/

/-- Python `needle in hay` (substring containment). -/
def listContains (needle : List Char) : List Char → Bool
  | [] => needle.isEmpty
  | c :: rest => needle.isPrefixOf (c :: rest) || listContains needle rest

/-- Python `needle in hay` on strings. -/
def pyIn (needle hay : String) : Bool :=
  listContains needle.data hay.data

/-- Fuel-driven worker for Python `str.replace`: replaces every
non-overlapping occurrence of `pat` by `repl`, scanning left to right.
Each step consumes at least one character, so fuel `s.length` suffices. -/
def replaceFuel (pat repl : List Char) : Nat → List Char → List Char
  | 0, s => s
  | _ + 1, [] => []
  | fuel + 1, c :: rest =>
    if pat.isPrefixOf (c :: rest) then
      repl ++ replaceFuel pat repl fuel ((c :: rest).drop pat.length)
    else
      c :: replaceFuel pat repl fuel rest

/-- Python `s.replace(pat, repl)`. A non-empty pattern is assumed by all
call sites in the sources; for an empty pattern the string is returned. -/
def pyReplace (s pat repl : String) : String :=
  if pat.data.isEmpty then s
  else ⟨replaceFuel pat.data repl.data s.data.length s.data⟩

/-- First index at which `needle` occurs in the remaining list, counting
from `i`. -/
def findAux (needle : List Char) : List Char → Nat → Option Nat
  | [], i => if needle.isEmpty then some i else none
  | c :: rest, i =>
    if needle.isPrefixOf (c :: rest) then some i else findAux needle rest (i + 1)

/-- Python `hay.find(needle)`: first index of the substring, or -1. -/
def pyFind (hay needle : String) : Int :=
  match findAux needle.data hay.data 0 with
  | some n => (n : Int)
  | none => -1

/-- Python `s.strip()` (leading and trailing whitespace removed). -/
def pyStrip (s : String) : String :=
  ⟨((s.data.dropWhile Char.isWhitespace).reverse.dropWhile Char.isWhitespace).reverse⟩

/-- Python `s.lower()` (the sources only lowercase ASCII text). -/
def pyLower (s : String) : String :=
  ⟨s.data.map Char.toLower⟩

/-- Python `s[:i]` for a non-negative slice bound. -/
def pyTake (s : String) (i : Nat) : String :=
  ⟨s.data.take i⟩

/-- Python `s.split(sep, 1)` when `sep` occurs in `s`: the part before the
first occurrence and the part after it. When `sep` does not occur the
whole string is returned as the first component (the sources only split
after checking occurrence). -/
def pySplit1 (s sep : String) : String × String :=
  match findAux sep.data s.data 0 with
  | some i => (⟨s.data.take i⟩, ⟨s.data.drop (i + sep.data.length)⟩)
  | none => (s, "")

/-! ## Axiom kernel (`axiom_kernel.py`)

`AxiomKernel.validate_against_axioms`: the logical-law and survival-law
sets held by the kernel never influence this check, so the check is a pure
function of the proposition text. -/

/-- `AxiomKernel.validate_against_axioms(proposition)` for string input:
returns `(is_valid, reason)`. `not proposition or not proposition.strip()`
is equivalent to the stripped string being empty. -/
def validate_against_axioms (proposition : String) : Bool × String :=
  if pyStrip proposition = "" then
    (false, "Empty proposition violates identity")
  else if proposition.length > 10000 then
    (false, "Proposition too long")
  else
    (true, "Passes axiom validation")

example : pyIn "5 + 5" "5 + 5 = 10" = true := by decide
example : pyReplace "a cat is not an animal" "a " "" = "cat is not an animal" := by decide
example : pyReplace "cat is not an animal" "an " "" = "cat is not animal" := by decide
example : pyStrip "  hi  " = "hi" := by decide
example : pyFind "the company builds trust" "builds" = 12 := by decide
example : pySplit1 "a cat is an animal" " is " = ("a cat", "an animal") := by decide
example : validate_against_axioms "hello" = (true, "Passes axiom validation") := by decide
example : validate_against_axioms "   " = (false, "Empty proposition violates identity") := by decide

/-! ## Truth validator (`truth_validator.py`) -/

/-- `ValidationResult` enum. -/
inductive ValidationResult where
  | TRUE
  | FALSE
  | UNKNOWN
  | CONTRADICTION
deriving DecidableEq

/-- `ValidationResponse` dataclass. Python float scores in this program
only ever take values that are integer multiples of 0.05, so every score
is represented exactly as a natural number of hundredths: 1.0 is 100,
0.95 is 95, 0.9 is 90, 0.8 is 80, 0.7 is 70, 0.3 is 30, 0.2 is 20,
0.1 is 10. All float comparisons in the sources are then Nat
comparisons, which agree with the float comparisons on these values. -/
structure ValidationResponse where
  result : ValidationResult
  confidence : Nat
  reasoning : String
  evidence : List String
deriving DecidableEq

/-- The `TruthValidator` instance state: its `_established_facts` dict,
modelled as an insertion-ordered association list with unique keys. -/
structure TruthValidator where
  established_facts : List (String × ValidationResponse)
deriving DecidableEq

/-- Python dict lookup `facts[key]` guarded by `key in facts`. -/
def factsLookup (key : String) (facts : List (String × ValidationResponse)) :
    Option ValidationResponse :=
  match facts with
  | [] => none
  | e :: rest => if e.1 = key then some e.2 else factsLookup key rest

/-- Python dict assignment `facts[key] = v`: overwrite in place if the key
exists, otherwise append. -/
def factsInsert (key : String) (v : ValidationResponse)
    (facts : List (String × ValidationResponse)) :
    List (String × ValidationResponse) :=
  if (factsLookup key facts).isSome then
    facts.map (fun e => if e.1 = key then (key, v) else e)
  else
    facts ++ [(key, v)]

/-- `TruthValidator._load_core_facts`: the three seeded entries, in
insertion order. -/
def load_core_facts : List (String × ValidationResponse) :=
  [("cat_is_animal",
    ⟨.TRUE, 100, "Cats are mammals, mammals are animals",
     ["biological taxonomy", "scientific classification"]⟩),
   ("chair_is_furniture",
    ⟨.TRUE, 100, "Chairs are designed objects for sitting, classified as furniture",
     ["object classification", "functional definition"]⟩),
   ("animal_not_furniture",
    ⟨.TRUE, 100,
     "Animals are living beings, furniture are inanimate objects - mutually exclusive categories",
     ["biological vs artificial classification"]⟩)]

/-- A fresh `TruthValidator()`. -/
def TruthValidator.init : TruthValidator := ⟨load_core_facts⟩

/-- The article-removal prefix of `TruthValidator._normalize_to_key`:
`statement.replace("a ", "").replace("an ", "").replace("the ", "")`. -/
def strip_articles (statement : String) : String :=
  pyReplace (pyReplace (pyReplace statement "a " "") "an " "") "the " ""

/-- `TruthValidator._normalize_to_key`. -/
def normalize_to_key (statement : String) : String :=
  let s := strip_articles statement
  if pyIn "cat" s && pyIn "animal" s && pyIn "is" s then "cat_is_animal"
  else if pyIn "cat" s && pyIn "chair" s && pyIn "is" s then "cat_is_chair"
  else if pyIn "chair" s && pyIn "furniture" s && pyIn "is" s then "chair_is_furniture"
  else pyReplace s " " "_"

/-- The shape values `_parse_statement` can produce. The Python function
returns a dict with a `type` tag; it never returns `None` (its final
branch returns the `general` dict), so the model is total. -/
inductive ParsedStatement where
  | classification (subject predicate : String)
  | mathematical (expression : String)
  | physical (claim : String)
  | general (content : String)
deriving DecidableEq

/-- `TruthValidator._parse_statement`. When `" is "` occurs, the 1-bounded
split always yields exactly two parts, so the `len(parts) == 2` guard in
the source always holds on that branch. -/
def parse_statement (statement : String) : ParsedStatement :=
  if pyIn " is " statement then
    let parts := pySplit1 statement " is "
    .classification
      (pyReplace (pyReplace (pyStrip parts.1) "a " "") "an " "")
      (pyReplace (pyReplace (pyStrip parts.2) "a " "") "an " "")
  else if ["+", "-", "*", "/", "=", "equals"].any (fun op => pyIn op statement) then
    .mathematical statement
  else if ["weighs", "measures", "temperature", "speed", "distance"].any
      (fun k => pyIn k statement) then
    .physical statement
  else
    .general statement

/-- `TruthValidator._get_category_facts` (computed but never used by
`_validate_classification`; kept for fidelity). -/
def get_category_facts (tv : TruthValidator) (category : String) : List String :=
  (tv.established_facts.filter
    (fun e => pyIn category e.1 && e.2.result == ValidationResult.TRUE)).map
    (fun e => e.2.reasoning)

/-- `TruthValidator._validate_classification`. -/
def validate_classification (tv : TruthValidator) (subject predicate : String) :
    ValidationResponse :=
  let _subject_facts := get_category_facts tv subject
  let _predicate_facts := get_category_facts tv predicate
  if subject = "cat" && predicate = "animal" then
    ⟨.TRUE, 100, subject ++ " is classified as " ++ predicate ++ " in biological taxonomy",
     ["biological classification"]⟩
  else if subject = "cat" && (predicate = "chair" || predicate = "furniture") then
    ⟨.FALSE, 100,
     subject ++ " is a living animal, " ++ predicate ++ " is an inanimate object - contradiction",
     ["biological vs artificial classification", "living vs non-living"]⟩
  else if subject = "co2" && pyIn "safe store" predicate && pyIn "oxygen" predicate then
    ⟨.FALSE, 90,
     "CO2 is not a safe store of oxygen - oxygen in CO2 is bound to carbon and not bioavailable",
     ["chemistry", "molecular structure"]⟩
  else
    ⟨.UNKNOWN, 30, "Insufficient knowledge to validate: " ++ subject ++ " is " ++ predicate, []⟩

/-- `TruthValidator._validate_mathematical`. -/
def validate_mathematical (expression : String) : ValidationResponse :=
  if pyIn "5 + 5" expression || pyIn "5+5" expression then
    if pyIn "10" expression || pyIn "equals 10" expression then
      ⟨.TRUE, 100, "5 + 5 = 10 is mathematically correct", ["arithmetic"]⟩
    else
      ⟨.FALSE, 100, "5 + 5 does not equal the stated result", ["arithmetic"]⟩
  else
    ⟨.UNKNOWN, 20, "Mathematical validation not implemented for this expression", []⟩

/-- `TruthValidator._validate_physical`. -/
def validate_physical : ValidationResponse :=
  ⟨.UNKNOWN, 20, "Physical validation system not fully implemented", []⟩

/-- `TruthValidator._simulate_llm_validation`. -/
def simulate_llm_validation : ValidationResponse :=
  ⟨.UNKNOWN, 10, "LLM validation unavailable - using rule-based validation only", ["no_llm"]⟩

/-- `TruthValidator.validate_statement`. -/
def validate_statement (tv : TruthValidator) (statement : String) : ValidationResponse :=
  let statement_lower := pyStrip (pyLower statement)
  let fact_key := normalize_to_key statement_lower
  match factsLookup fact_key tv.established_facts with
  | some resp => resp
  | none =>
    match parse_statement statement_lower with
    | .classification subject predicate => validate_classification tv subject predicate
    | .mathematical expression => validate_mathematical expression
    | .physical _ => validate_physical
    | .general _ => simulate_llm_validation

/-- `TruthValidator.add_validated_fact`: persists only TRUE validations. -/
def add_validated_fact (tv : TruthValidator) (statement : String)
    (validation : ValidationResponse) : TruthValidator :=
  if validation.result ≠ ValidationResult.TRUE then tv
  else ⟨factsInsert (normalize_to_key (pyLower statement)) validation tv.established_facts⟩

example :
    validate_statement TruthValidator.init "cats are animals" = simulate_llm_validation := by
  decide
example :
    validate_statement TruthValidator.init "5 + 5 = 10" =
      ⟨.TRUE, 100, "5 + 5 = 10 is mathematically correct", ["arithmetic"]⟩ := by decide
example :
    validate_statement TruthValidator.init "5 + 5 = 11" =
      ⟨.FALSE, 100, "5 + 5 does not equal the stated result", ["arithmetic"]⟩ := by decide
example :
    validate_statement TruthValidator.init "a cat is not an animal" =
      ⟨.TRUE, 100, "Cats are mammals, mammals are animals",
       ["biological taxonomy", "scientific classification"]⟩ := by decide
example : parse_statement "cats are animals" = .general "cats are animals" := by decide

/-! ## Contradiction engine (`contradiction_engine.py`) -/

/-- `ContradictionType` enum. -/
inductive ContradictionType where
  | DIRECT
  | LOGICAL
  | TEMPORAL
  | SURVIVAL
deriving DecidableEq

/-- The `.value` string of each `ContradictionType` member. -/
def ContradictionType.value : ContradictionType → String
  | .DIRECT => "Direct logical contradiction"
  | .LOGICAL => "Logical contradiction through inference"
  | .TEMPORAL => "Temporal contradiction (time-based conflict)"
  | .SURVIVAL => "Violates survival axioms"

/-- `Proposition` dataclass (`confidence` in hundredths; default 1.0 is 100). -/
structure Proposition where
  id : String
  content : String
  source : String
  timestamp : String
  confidence : Nat
deriving DecidableEq

/-- `Contradiction` dataclass (`severity` in hundredths). -/
structure Contradiction where
  type : ContradictionType
  propositions : List Proposition
  explanation : String
  severity : Nat
deriving DecidableEq

/-- The `ContradictionEngine` instance state. `_known_propositions` is a
Python set hashed by proposition id; it is modelled as the list of
propositions in insertion order (one fixed iteration order). -/
structure EngineState where
  known_propositions : List Proposition
  detected_contradictions : List Contradiction
  truth_validator : TruthValidator
deriving DecidableEq

/-- A fresh `ContradictionEngine()`. -/
def EngineState.init : EngineState := ⟨[], [], TruthValidator.init⟩

/-- The negation words of `ContradictionEngine._is_negation`. -/
def negation_words : List String :=
  ["not", "no", "never", "cannot", "can\x27t", "won\x27t", "don\x27t", "doesn\x27t"]

/-- The antonym verb pairs of `ContradictionEngine._is_negation`. -/
def opposite_verbs : List (String × String) :=
  [("builds", "destroys"), ("creates", "destroys"), ("strengthens", "weakens"),
   ("supports", "undermines"), ("helps", "harms"), ("improves", "degrades"),
   ("stabilizes", "destabilizes"), ("maintains", "breaks")]

/-- One antonym-pair test of `_is_negation`: `pos` occurs in `c1`, `neg`
occurs in `c2`, both at a strictly positive index, and the text before the
verb on each side matches or is contained in the other. -/
def opposite_check (pos neg c1 c2 : String) : Bool :=
  pyIn pos c1 && pyIn neg c2 &&
    (let pos_idx := pyFind c1 pos
     let neg_idx := pyFind c2 neg
     pos_idx > 0 && neg_idx > 0 &&
       (let subject1 := pyStrip (pyTake c1 pos_idx.toNat)
        let subject2 := pyStrip (pyTake c2 neg_idx.toNat)
        subject1 == subject2 || pyIn subject1 subject2 || pyIn subject2 subject1))

/-- `ContradictionEngine._is_negation` on two lowercased contents: the
negation-word asymmetry test (each word, first the `content1` side then
the `content2` side), then the antonym-verb table (each pair in both
directions). The first hit wins, matching the early returns. -/
def is_negation (content1 content2 : String) : Bool :=
  (negation_words.any (fun neg =>
    (pyIn neg content1 && !pyIn neg content2 &&
      (let cleaned1 := pyStrip (pyReplace content1 neg "")
       pyIn cleaned1 content2 || pyIn content2 cleaned1)) ||
    (pyIn neg content2 && !pyIn neg content1 &&
      (let cleaned2 := pyStrip (pyReplace content2 neg "")
       pyIn cleaned2 content1 || pyIn content1 cleaned2)))) ||
  (opposite_verbs.any (fun pair =>
    opposite_check pair.1 pair.2 content1 content2 ||
    opposite_check pair.2 pair.1 content1 content2))

/-- `ContradictionEngine._check_direct_contradiction`: first known
proposition whose lowered content is a negation of the new lowered
content; severity fixed at 1.0 (100). -/
def check_direct_contradiction (eng : EngineState) (prop : Proposition) :
    Option Contradiction :=
  let content_lower := pyLower prop.content
  match eng.known_propositions.find?
      (fun existing => is_negation content_lower (pyLower existing.content)) with
  | some existing =>
    some ⟨.DIRECT, [existing, prop],
      "Direct contradiction: \x27" ++ existing.content ++ "\x27 vs \x27" ++
        prop.content ++ "\x27", 100⟩
  | none => none

/-- The greed/extraction keyword family of `_check_survival_violation`. -/
def greed_patterns : List String :=
  ["maximize profit", "extract", "exploit", "short-term gain",
   "at all costs", "profit above all", "maximum extraction",
   "squeeze every penny", "milk for profit"]

/-- The destabilization keyword family of `_check_survival_violation`. -/
def destabilize_patterns : List String :=
  ["destabilize", "undermine", "break", "destroy collective",
   "tear down", "dismantle", "sabotage", "weaken the system"]

/-- `ContradictionEngine._check_survival_violation`: greed patterns give
severity 0.8 (80), destabilization patterns 0.9 (90). -/
def check_survival_violation (prop : Proposition) : Option Contradiction :=
  let content_lower := pyLower prop.content
  if greed_patterns.any (fun p => pyIn p content_lower) then
    some ⟨.SURVIVAL, [prop],
      "Violates survival axiom: \x27" ++ prop.content ++
        "\x27 optimizes for extraction over collective stability", 80⟩
  else if destabilize_patterns.any (fun p => pyIn p content_lower) then
    some ⟨.SURVIVAL, [prop],
      "Violates survival axiom: \x27" ++ prop.content ++
        "\x27 destabilizes collective coherence", 90⟩
  else
    none

/-- `ContradictionEngine._check_truth_violation`: also returns the truth
validator state, which `add_validated_fact` may have extended when the
validation result was TRUE. FALSE gives severity 0.95 (95), CONTRADICTION
1.0 (100). -/
def check_truth_violation (eng : EngineState) (prop : Proposition) :
    Option Contradiction × TruthValidator :=
  let validation := validate_statement eng.truth_validator prop.content
  if validation.result = ValidationResult.FALSE then
    (some ⟨.LOGICAL, [prop], "Statement is false: " ++ validation.reasoning, 95⟩,
     eng.truth_validator)
  else if validation.result = ValidationResult.CONTRADICTION then
    (some ⟨.LOGICAL, [prop], "Contradicts established facts: " ++ validation.reasoning, 100⟩,
     eng.truth_validator)
  else if validation.result = ValidationResult.TRUE then
    (none, add_validated_fact eng.truth_validator prop.content validation)
  else
    (none, eng.truth_validator)

/-- `ContradictionEngine.add_proposition`: the three checks in order,
short-circuiting on the first hit; a detected contradiction is appended to
the log, otherwise the proposition joins the known set. -/
def add_proposition (eng : EngineState) (prop : Proposition) :
    Option Contradiction × EngineState :=
  match check_direct_contradiction eng prop with
  | some c =>
    (some c, { eng with detected_contradictions := eng.detected_contradictions ++ [c] })
  | none =>
    match check_survival_violation prop with
    | some c =>
      (some c, { eng with detected_contradictions := eng.detected_contradictions ++ [c] })
    | none =>
      match check_truth_violation eng prop with
      | (some c, tv) =>
        (some c, { eng with detected_contradictions := eng.detected_contradictions ++ [c],
                            truth_validator := tv })
      | (none, tv) =>
        (none, { eng with known_propositions := eng.known_propositions ++ [prop],
                          truth_validator := tv })

/-- Python `str` of the float severities this program constructs
(hundredths back to the decimal literal Python would print). -/
def severity_str : Nat → String
  | 100 => "1.0"
  | 95 => "0.95"
  | 90 => "0.9"
  | 80 => "0.8"
  | 70 => "0.7"
  | _ => "?"

/-- The enumerated proposition lines of `generate_refusal`, starting at 1. -/
def refusal_lines : Nat → List Proposition → String
  | _, [] => ""
  | i, p :: rest =>
    "  " ++ toString i ++ ". [" ++ p.source ++ "] " ++ p.content ++ "\n" ++
      refusal_lines (i + 1) rest

/-- `ContradictionEngine.generate_refusal`. -/
def generate_refusal (c : Contradiction) : String :=
  "REFUSAL: " ++ c.type.value ++ "\n" ++
  "Reason: " ++ c.explanation ++ "\n" ++
  "Severity: " ++ severity_str c.severity ++ "\n" ++
  "\nCounterexample:\n" ++
  refusal_lines 1 c.propositions ++
  "\nLogic is master. This command violates coherence."

/-- `ContradictionEngine.get_contradiction_count`. -/
def get_contradiction_count (eng : EngineState) : Nat :=
  eng.detected_contradictions.length

example :
    (add_proposition EngineState.init ⟨"user_t", "maximize profit at all costs", "user", "t", 100⟩).1 =
      some ⟨.SURVIVAL, [⟨"user_t", "maximize profit at all costs", "user", "t", 100⟩],
        "Violates survival axiom: \x27maximize profit at all costs\x27 optimizes for extraction over collective stability",
        80⟩ := by decide

example :
    is_negation (pyLower "the company destroys trust") (pyLower "the company builds trust") = true := by
  decide

/-! ## Proof ledger (`proof_ledger.py`)

`_compute_hash` is SHA-256 over the sorted-keys JSON encoding of the six
content fields (timestamp, premises, inference_steps, conclusion,
counterexample, prev_hash). The digest pipeline is modelled as an
arbitrary function `H` from that field tuple (`RecordData`) to an abstract
`Hash` type; where a claim relies on collision resistance, `H` is assumed
injective. `datetime.utcnow()` is an external input, so every timestamp
is an explicit argument. -/

/-- The fields of a record that enter the digest, in the roles they have
in the JSON object (the JSON key order is fixed by `sort_keys=True` and
is irrelevant once the encoding is abstracted into `H`). -/
structure RecordData (Hash : Type) where
  timestamp : String
  premises : List String
  inference_steps : List String
  conclusion : String
  counterexample : Option String
  prev_hash : Hash
deriving DecidableEq

/-- `ProofRecord` dataclass (frozen). -/
structure ProofRecord (Hash : Type) where
  timestamp : String
  premises : List String
  inference_steps : List String
  conclusion : String
  counterexample : Option String
  hash : Hash
  prev_hash : Hash
deriving DecidableEq

/-- The digest input recomputed from a stored record's fields
(`verify_integrity`'s `record_data`). -/
def ProofRecord.data {Hash : Type} (r : ProofRecord Hash) : RecordData Hash :=
  ⟨r.timestamp, r.premises, r.inference_steps, r.conclusion, r.counterexample, r.prev_hash⟩

/-- The caller-supplied arguments of one `ProofLedger.append` call,
together with the timestamp `append` reads from the clock. -/
structure AppendInput where
  timestamp : String
  premises : List String
  inference_steps : List String
  conclusion : String
  counterexample : Option String
deriving DecidableEq

/-- `self._records[-1].hash if self._records else dflt`. -/
def last_hash {Hash : Type} (dflt : Hash) (records : List (ProofRecord Hash)) : Hash :=
  records.foldl (fun _ r => r.hash) dflt

/-- `ProofLedger.append`: link to the tail (or the genesis digest), hash
the new record's content, and append. -/
def ledger_append {Hash : Type} (H : RecordData Hash → Hash) (genesis : Hash)
    (records : List (ProofRecord Hash)) (inp : AppendInput) : List (ProofRecord Hash) :=
  let prev_hash := last_hash genesis records
  let d : RecordData Hash :=
    ⟨inp.timestamp, inp.premises, inp.inference_steps, inp.conclusion,
     inp.counterexample, prev_hash⟩
  records ++ [⟨inp.timestamp, inp.premises, inp.inference_steps, inp.conclusion,
              inp.counterexample, H d, prev_hash⟩]

/-- A ledger produced from a fresh `ProofLedger()` by one `append` call
per input, in order. -/
def build_ledger {Hash : Type} (H : RecordData Hash → Hash) (genesis : Hash)
    (inputs : List AppendInput) : List (ProofRecord Hash) :=
  inputs.foldl (ledger_append H genesis) []

/-- The loop of `ProofLedger.verify_integrity`: walk the records carrying
the running expected hash and the index, checking linkage then recomputed
content digest, failing fast with the offending index. -/
def verify_go {Hash : Type} [DecidableEq Hash] (H : RecordData Hash → Hash) :
    Hash → Nat → List (ProofRecord Hash) → Bool × String
  | _, _, [] => (true, "Ledger integrity verified")
  | expected, i, r :: rest =>
    if r.prev_hash ≠ expected then
      (false, "Chain broken at record " ++ toString i)
    else if r.hash ≠ H r.data then
      (false, "Record " ++ toString i ++ " hash mismatch - content tampered")
    else
      verify_go H r.hash (i + 1) rest

/-- `ProofLedger.verify_integrity`. -/
def verify_integrity {Hash : Type} [DecidableEq Hash] (H : RecordData Hash → Hash)
    (genesis : Hash) (records : List (ProofRecord Hash)) : Bool × String :=
  if records.isEmpty then (true, "Empty ledger is valid")
  else verify_go H genesis 0 records

/-- A concrete hash domain used to instantiate the abstract digest in
closed witnesses: the free algebra with one genesis point and one
constructor per digest computation, on which the digest function is
injective by construction. -/
inductive HVal where
  | genesis
  | digest (timestamp : String) (premises inference_steps : List String)
      (conclusion : String) (counterexample : Option String) (prev : HVal)
deriving DecidableEq

/-- The free digest function on `HVal`. -/
def hval_hash (d : RecordData HVal) : HVal :=
  .digest d.timestamp d.premises d.inference_steps d.conclusion d.counterexample d.prev_hash

theorem hval_hash_injective : Function.Injective hval_hash := by
  intro d1 d2 h
  cases d1
  cases d2
  simp only [hval_hash, HVal.digest.injEq] at h
  simp only [RecordData.mk.injEq]
  exact h

/-! ## Decision pipeline (`frankenstein_core.py`) -/

/-- The `FrankensteinCore` instance state. The axiom kernel holds no
mutable state that `process_command` reads, so only the ledger, the
engine and the override flag are carried. -/
structure CoreState (Hash : Type) where
  proof_ledger : List (ProofRecord Hash)
  contradiction_engine : EngineState
  override_active : Bool
deriving DecidableEq

/-- `self._contradiction_threshold = 0.7` (in hundredths). -/
def contradiction_threshold : Nat := 70

/-- `FrankensteinCore.__init__`: fresh components, override off, and the
initialization record appended to the ledger (`ts` is the timestamp
`append` reads from the clock). -/
def init_core {Hash : Type} (H : RecordData Hash → Hash) (genesis : Hash)
    (ts : String) : CoreState Hash :=
  let ledger0 := ledger_append H genesis []
    ⟨ts, ["System initialization"],
     ["Load axiom kernel", "Initialize proof ledger", "Initialize contradiction engine"],
     "Frankenstein Core initialized - Logic is master", none⟩
  { proof_ledger := ledger0,
    contradiction_engine := EngineState.init,
    override_active := false }

/-- The source sanitization of `process_command`:
`''.join(c for c in source if c.isalnum() or c in '_-')[:50]`. -/
def sanitize_source (source : String) : String :=
  ⟨(source.data.filter (fun c => c.isAlphanum || c = '_' || c = '-')).take 50⟩

/-- `FrankensteinCore.process_command` for string command and source.
`ts` is the timestamp the method itself reads (used in the proposition
id), `ts2` the one the ledger's `append` reads. Returns the
`(accepted, message)` pair and the successor state. -/
def process_command {Hash : Type} [DecidableEq Hash] (H : RecordData Hash → Hash)
    (genesis : Hash) (st : CoreState Hash) (command source ts ts2 : String) :
    (Bool × String) × CoreState Hash :=
  let src := sanitize_source source
  let prop : Proposition := ⟨src ++ "_" ++ ts, command, src, ts, 100⟩
  let ax := validate_against_axioms command
  if ax.1 = false then
    let refusal := "AXIOM VIOLATION: " ++ ax.2
    let ledger2 := ledger_append H genesis st.proof_ledger
      ⟨ts2, [command], ["Axiom validation"], "REFUSED", some refusal⟩
    ((false, refusal), { st with proof_ledger := ledger2 })
  else
    match add_proposition st.contradiction_engine prop with
    | (some c, eng) =>
      let ov := if contradiction_threshold ≤ c.severity then true else st.override_active
      let refusal := generate_refusal c
      let ledger2 := ledger_append H genesis st.proof_ledger
        ⟨ts2, [command], ["Contradiction detection", "Type: " ++ c.type.value],
         "REFUSED", some refusal⟩
      ((false, refusal),
       { proof_ledger := ledger2, contradiction_engine := eng, override_active := ov })
    | (none, eng) =>
      let ledger2 := ledger_append H genesis st.proof_ledger
        ⟨ts2, [command], ["Axiom validation: PASS", "Contradiction check: PASS"],
         "ACCEPTED", none⟩
      ((true, "Command accepted: " ++ command),
       { st with proof_ledger := ledger2, contradiction_engine := eng })

/-- One command submission: command, source and the two timestamps. -/
structure CommandInput where
  command : String
  source : String
  ts : String
  ts2 : String

/-- A sequence of `process_command` calls, discarding the returned
messages. -/
def process_many {Hash : Type} [DecidableEq Hash] (H : RecordData Hash → Hash)
    (genesis : Hash) (st : CoreState Hash) (cmds : List CommandInput) : CoreState Hash :=
  cmds.foldl (fun s q => (process_command H genesis s q.command q.source q.ts q.ts2).2) st

example :
    (process_command hval_hash HVal.genesis (init_core hval_hash HVal.genesis "t0")
      "cats are animals" "user" "t1" "t2").1 = (true, "Command accepted: cats are animals") := by
  decide

example :
    (process_command hval_hash HVal.genesis (init_core hval_hash HVal.genesis "t0")
      "cats are animals" "user" "t1" "t2").2.proof_ledger.length = 2 := by
  decide

/-! ## Chain invariants of the ledger -/

/-- The property `verify_integrity` checks, as a predicate: starting from
`expected`, every record links to the running hash and carries the digest
of its own content. -/
def chain_ok {Hash : Type} (H : RecordData Hash → Hash) :
    Hash → List (ProofRecord Hash) → Prop
  | _, [] => True
  | expected, r :: rest => r.prev_hash = expected ∧ r.hash = H r.data ∧ chain_ok H r.hash rest

theorem last_hash_cons {Hash : Type} (d : Hash) (r : ProofRecord Hash)
    (rest : List (ProofRecord Hash)) : last_hash d (r :: rest) = last_hash r.hash rest := rfl

theorem ledger_append_cons {Hash : Type} (H : RecordData Hash → Hash) (genesis : Hash)
    (r : ProofRecord Hash) (rest : List (ProofRecord Hash)) (inp : AppendInput) :
    ledger_append H genesis (r :: rest) inp = r :: ledger_append H r.hash rest inp := rfl

theorem chain_ok_ledger_append {Hash : Type} (H : RecordData Hash → Hash)
    (d : Hash) (rs : List (ProofRecord Hash)) (inp : AppendInput)
    (h : chain_ok H d rs) : chain_ok H d (ledger_append H d rs inp) := by
  induction rs generalizing d with
  | nil => exact ⟨rfl, rfl, trivial⟩
  | cons r rest ih =>
    rw [ledger_append_cons]
    obtain ⟨h1, h2, h3⟩ := h
    exact ⟨h1, h2, ih r.hash h3⟩

theorem chain_ok_build {Hash : Type} (H : RecordData Hash → Hash) (genesis : Hash)
    (inputs : List AppendInput) : chain_ok H genesis (build_ledger H genesis inputs) := by
  suffices h : ∀ st, chain_ok H genesis st →
      chain_ok H genesis (List.foldl (ledger_append H genesis) st inputs) from
    h [] trivial
  induction inputs with
  | nil => intro st h; exact h
  | cons inp rest ih =>
    intro st h
    exact ih _ (chain_ok_ledger_append H genesis st inp h)

theorem verify_go_ok {Hash : Type} [DecidableEq Hash] (H : RecordData Hash → Hash)
    (rs : List (ProofRecord Hash)) :
    ∀ expected i, chain_ok H expected rs →
      verify_go H expected i rs = (true, "Ledger integrity verified") := by
  induction rs with
  | nil => intro e i _; rfl
  | cons r rest ih =>
    intro e i h
    obtain ⟨h1, h2, h3⟩ := h
    have hc1 : ¬(r.prev_hash ≠ e) := by simp [h1]
    have hc2 : ¬(r.hash ≠ H r.data) := by simp [h2]
    simp only [verify_go, if_neg hc1, if_neg hc2]
    exact ih r.hash (i + 1) h3

theorem chain_ok_get {Hash : Type} (H : RecordData Hash → Hash)
    (rs : List (ProofRecord Hash)) :
    ∀ expected, chain_ok H expected rs →
      (∀ h0 : 0 < rs.length, (rs.get ⟨0, h0⟩).prev_hash = expected) ∧
      (∀ i, ∀ hi : i + 1 < rs.length,
        (rs.get ⟨i + 1, hi⟩).prev_hash = (rs.get ⟨i, by omega⟩).hash) := by
  induction rs with
  | nil =>
    intro e _
    refine ⟨fun h0 => absurd h0 (by simp), fun i hi => absurd hi (by simp)⟩
  | cons r rest ih =>
    intro e h
    obtain ⟨h1, h2, h3⟩ := h
    refine ⟨fun _ => h1, fun i hi => ?_⟩
    cases i with
    | zero =>
      have hlen : 0 < rest.length := by simpa using hi
      simpa using (ih r.hash h3).1 hlen
    | succ j =>
      have hj : j + 1 < rest.length := by simpa using hi
      simpa using (ih r.hash h3).2 j hj

theorem verify_go_skip {Hash : Type} [DecidableEq Hash] (H : RecordData Hash → Hash)
    (xs : List (ProofRecord Hash)) :
    ∀ expected i zs, chain_ok H expected xs →
      verify_go H expected i (xs ++ zs) =
        verify_go H (last_hash expected xs) (i + xs.length) zs := by
  induction xs with
  | nil => intro e i zs _; simp [last_hash]
  | cons r rest ih =>
    intro e i zs h
    obtain ⟨h1, h2, h3⟩ := h
    rw [List.cons_append]
    have hc1 : ¬(r.prev_hash ≠ e) := by simp [h1]
    have hc2 : ¬(r.hash ≠ H r.data) := by simp [h2]
    simp only [verify_go, if_neg hc1, if_neg hc2]
    rw [ih r.hash (i + 1) zs h3, last_hash_cons]
    congr 1
    simp only [List.length_cons]
    omega

theorem chain_ok_append_left {Hash : Type} (H : RecordData Hash → Hash)
    (xs : List (ProofRecord Hash)) :
    ∀ expected ys, chain_ok H expected (xs ++ ys) →
      chain_ok H expected xs ∧ chain_ok H (last_hash expected xs) ys := by
  induction xs with
  | nil => intro e ys h; exact ⟨trivial, by simpa [last_hash] using h⟩
  | cons r rest ih =>
    intro e ys h
    obtain ⟨h1, h2, h3⟩ := h
    obtain ⟨ha, hb⟩ := ih r.hash ys h3
    exact ⟨⟨h1, h2, ha⟩, by rwa [last_hash_cons]⟩

/-! ## Single-field tampering -/

/-- One in-place overwrite of a single field of a stored record. -/
inductive FieldUpdate (Hash : Type) where
  | set_timestamp (v : String)
  | set_premises (v : List String)
  | set_inference_steps (v : List String)
  | set_conclusion (v : String)
  | set_counterexample (v : Option String)
  | set_hash (v : Hash)
  | set_prev_hash (v : Hash)

/-- Apply a single-field overwrite to a record. -/
def apply_update {Hash : Type} : FieldUpdate Hash → ProofRecord Hash → ProofRecord Hash
  | .set_timestamp v, r => { r with timestamp := v }
  | .set_premises v, r => { r with premises := v }
  | .set_inference_steps v, r => { r with inference_steps := v }
  | .set_conclusion v, r => { r with conclusion := v }
  | .set_counterexample v, r => { r with counterexample := v }
  | .set_hash v, r => { r with hash := v }
  | .set_prev_hash v, r => { r with prev_hash := v }

/-- Overwrite one field of the record at position `i`, leaving the rest
of the ledger in place. -/
def mutate_at {Hash : Type} (u : FieldUpdate Hash) :
    Nat → List (ProofRecord Hash) → List (ProofRecord Hash)
  | _, [] => []
  | 0, r :: rest => apply_update u r :: rest
  | i + 1, r :: rest => r :: mutate_at u i rest

theorem mutate_at_eq {Hash : Type} (u : FieldUpdate Hash) :
    ∀ (i : Nat) (rs : List (ProofRecord Hash)) (hi : i < rs.length),
      mutate_at u i rs = rs.take i ++ apply_update u (rs.get ⟨i, hi⟩) :: rs.drop (i + 1) := by
  intro i
  induction i with
  | zero =>
    intro rs hi
    cases rs with
    | nil => simp at hi
    | cons r rest => simp [mutate_at]
  | succ j ih =>
    intro rs hi
    cases rs with
    | nil => simp at hi
    | cons r rest =>
      have hj : j < rest.length := by simpa using hi
      simp [mutate_at, ih rest hj]

theorem verify_go_tampered_head {Hash : Type} [DecidableEq Hash]
    (H : RecordData Hash → Hash) (hinj : Function.Injective H)
    (u : FieldUpdate Hash) (r : ProofRecord Hash) (tail : List (ProofRecord Hash)) (i : Nat)
    (hne : apply_update u r ≠ r) (hhash : r.hash = H r.data) :
    verify_go H r.prev_hash i (apply_update u r :: tail) =
        (false, "Chain broken at record " ++ toString i) ∨
    verify_go H r.prev_hash i (apply_update u r :: tail) =
        (false, "Record " ++ toString i ++ " hash mismatch - content tampered") := by
  cases u with
  | set_prev_hash v =>
    left
    have hv : v ≠ r.prev_hash := fun h => hne (by simp [apply_update, h])
    simp [verify_go, apply_update, hv]
  | set_hash v =>
    right
    have hv : v ≠ r.hash := fun h => hne (by simp [apply_update, h])
    have hcond : ({ r with hash := v } : ProofRecord Hash).hash ≠
        H ({ r with hash := v } : ProofRecord Hash).data := by
      show v ≠ H r.data
      rw [← hhash]
      exact hv
    have hc1 : ¬(({ r with hash := v } : ProofRecord Hash).prev_hash ≠ r.prev_hash) := by simp
    simp only [apply_update, verify_go, if_neg hc1, if_pos hcond]
  | set_timestamp v =>
    right
    have hv : v ≠ r.timestamp := fun h => hne (by simp [apply_update, h])
    have hdne : ({ r with timestamp := v } : ProofRecord Hash).data ≠ r.data := by
      intro h
      exact hv (congrArg RecordData.timestamp h)
    have hcond : ({ r with timestamp := v } : ProofRecord Hash).hash ≠
        H ({ r with timestamp := v } : ProofRecord Hash).data := by
      show r.hash ≠ _
      rw [hhash]
      exact fun h => hdne (hinj h.symm)
    have hc1 : ¬(({ r with timestamp := v } : ProofRecord Hash).prev_hash ≠ r.prev_hash) := by
      simp
    simp only [apply_update, verify_go, if_neg hc1, if_pos hcond]
  | set_premises v =>
    right
    have hv : v ≠ r.premises := fun h => hne (by simp [apply_update, h])
    have hdne : ({ r with premises := v } : ProofRecord Hash).data ≠ r.data := by
      intro h
      exact hv (congrArg RecordData.premises h)
    have hcond : ({ r with premises := v } : ProofRecord Hash).hash ≠
        H ({ r with premises := v } : ProofRecord Hash).data := by
      show r.hash ≠ _
      rw [hhash]
      exact fun h => hdne (hinj h.symm)
    have hc1 : ¬(({ r with premises := v } : ProofRecord Hash).prev_hash ≠ r.prev_hash) := by
      simp
    simp only [apply_update, verify_go, if_neg hc1, if_pos hcond]
  | set_inference_steps v =>
    right
    have hv : v ≠ r.inference_steps := fun h => hne (by simp [apply_update, h])
    have hdne : ({ r with inference_steps := v } : ProofRecord Hash).data ≠ r.data := by
      intro h
      exact hv (congrArg RecordData.inference_steps h)
    have hcond : ({ r with inference_steps := v } : ProofRecord Hash).hash ≠
        H ({ r with inference_steps := v } : ProofRecord Hash).data := by
      show r.hash ≠ _
      rw [hhash]
      exact fun h => hdne (hinj h.symm)
    have hc1 : ¬(({ r with inference_steps := v } : ProofRecord Hash).prev_hash ≠ r.prev_hash) := by
      simp
    simp only [apply_update, verify_go, if_neg hc1, if_pos hcond]
  | set_conclusion v =>
    right
    have hv : v ≠ r.conclusion := fun h => hne (by simp [apply_update, h])
    have hdne : ({ r with conclusion := v } : ProofRecord Hash).data ≠ r.data := by
      intro h
      exact hv (congrArg RecordData.conclusion h)
    have hcond : ({ r with conclusion := v } : ProofRecord Hash).hash ≠
        H ({ r with conclusion := v } : ProofRecord Hash).data := by
      show r.hash ≠ _
      rw [hhash]
      exact fun h => hdne (hinj h.symm)
    have hc1 : ¬(({ r with conclusion := v } : ProofRecord Hash).prev_hash ≠ r.prev_hash) := by
      simp
    simp only [apply_update, verify_go, if_neg hc1, if_pos hcond]
  | set_counterexample v =>
    right
    have hv : v ≠ r.counterexample := fun h => hne (by simp [apply_update, h])
    have hdne : ({ r with counterexample := v } : ProofRecord Hash).data ≠ r.data := by
      intro h
      exact hv (congrArg RecordData.counterexample h)
    have hcond : ({ r with counterexample := v } : ProofRecord Hash).hash ≠
        H ({ r with counterexample := v } : ProofRecord Hash).data := by
      show r.hash ≠ _
      rw [hhash]
      exact fun h => hdne (hinj h.symm)
    have hc1 : ¬(({ r with counterexample := v } : ProofRecord Hash).prev_hash ≠ r.prev_hash) := by
      simp
    simp only [apply_update, verify_go, if_neg hc1, if_pos hcond]

/-! ## Claim theorems -/

/-- Concrete append inputs used by closed witnesses. -/
def inpA : AppendInput :=
  ⟨"t1", ["cats are animals"], ["Axiom validation: PASS", "Contradiction check: PASS"],
   "ACCEPTED", none⟩

/-- Second concrete append input used by closed witnesses. -/
def inpB : AppendInput :=
  ⟨"t2", ["5 + 5 = 11"], ["Contradiction detection"], "REFUSED", some "refusal text"⟩

/-- C1: for every sequence of appends on a fresh ledger, a subsequent
`verify_integrity()` reports the ledger valid; the empty ledger is valid;
and after the appends every record's `prev_hash` equals the hash of the
immediately preceding record, or the genesis digest for the first
record. -/
theorem claim_C1_append_then_verify (Hash : Type) [DecidableEq Hash]
    (H : RecordData Hash → Hash) (genesis : Hash) (inputs : List AppendInput) :
    (verify_integrity H genesis (build_ledger H genesis inputs)).1 = true ∧
    verify_integrity H genesis ([] : List (ProofRecord Hash)) = (true, "Empty ledger is valid") ∧
    (∀ h0 : 0 < (build_ledger H genesis inputs).length,
      ((build_ledger H genesis inputs).get ⟨0, h0⟩).prev_hash = genesis) ∧
    (∀ i, ∀ hi : i + 1 < (build_ledger H genesis inputs).length,
      ((build_ledger H genesis inputs).get ⟨i + 1, hi⟩).prev_hash =
        ((build_ledger H genesis inputs).get ⟨i, by omega⟩).hash) := by
  have hch := chain_ok_build H genesis inputs
  refine ⟨?_, rfl, (chain_ok_get H _ genesis hch).1, (chain_ok_get H _ genesis hch).2⟩
  cases hemp : (build_ledger H genesis inputs).isEmpty with
  | true => simp [verify_integrity, hemp]
  | false => simp [verify_integrity, hemp, verify_go_ok H _ genesis 0 hch]

theorem claim_C1_witness :
    (verify_integrity hval_hash HVal.genesis
      (build_ledger hval_hash HVal.genesis [inpA, inpB])).1 = true ∧
    ((build_ledger hval_hash HVal.genesis [inpA, inpB]).get ⟨1, by decide⟩).prev_hash =
      ((build_ledger hval_hash HVal.genesis [inpA, inpB]).get ⟨0, by decide⟩).hash :=
  ⟨(claim_C1_append_then_verify HVal hval_hash HVal.genesis [inpA, inpB]).1,
   (claim_C1_append_then_verify HVal hval_hash HVal.genesis [inpA, inpB]).2.2.2 0 (by decide)⟩

/-- C2: on a ledger built by appends, overwriting any single field of any
one stored record with a different value makes `verify_integrity()` fail
and report that record's index (either as a linkage break or as a content
tamper). Collision resistance of the digest is modelled by assuming `H`
injective. -/
theorem claim_C2_tamper_detected (Hash : Type) [DecidableEq Hash]
    (H : RecordData Hash → Hash) (genesis : Hash) (hinj : Function.Injective H)
    (inputs : List AppendInput) (i : Nat) (u : FieldUpdate Hash)
    (hi : i < (build_ledger H genesis inputs).length)
    (hchange : apply_update u ((build_ledger H genesis inputs).get ⟨i, hi⟩) ≠
      (build_ledger H genesis inputs).get ⟨i, hi⟩) :
    (verify_integrity H genesis (mutate_at u i (build_ledger H genesis inputs))).1 = false ∧
    ((verify_integrity H genesis (mutate_at u i (build_ledger H genesis inputs))).2 =
        "Chain broken at record " ++ toString i ∨
     (verify_integrity H genesis (mutate_at u i (build_ledger H genesis inputs))).2 =
        "Record " ++ toString i ++ " hash mismatch - content tampered") := by
  have hch := chain_ok_build H genesis inputs
  have hmut := mutate_at_eq u i (build_ledger H genesis inputs) hi
  have hchsplit := chain_ok_append_left H ((build_ledger H genesis inputs).take i) genesis
    ((build_ledger H genesis inputs).drop i)
    (by rw [List.take_append_drop]; exact hch)
  obtain ⟨hchtake, hchdrop⟩ := hchsplit
  have hdrop : (build_ledger H genesis inputs).drop i =
      (build_ledger H genesis inputs).get ⟨i, hi⟩ ::
        (build_ledger H genesis inputs).drop (i + 1) := by
    rw [List.drop_eq_getElem_cons hi]
    simp [List.get_eq_getElem]
  rw [hdrop] at hchdrop
  obtain ⟨hprev, hhash, _⟩ := hchdrop
  have hlen : ((build_ledger H genesis inputs).take i).length = i := by
    rw [List.length_take]
    omega
  have hnonempty : ¬((mutate_at u i (build_ledger H genesis inputs)).isEmpty = true) := by
    rw [hmut]
    simp
  have hverify : verify_integrity H genesis (mutate_at u i (build_ledger H genesis inputs)) =
      verify_go H (last_hash genesis ((build_ledger H genesis inputs).take i)) i
        (apply_update u ((build_ledger H genesis inputs).get ⟨i, hi⟩) ::
          (build_ledger H genesis inputs).drop (i + 1)) := by
    rw [verify_integrity, if_neg hnonempty, hmut,
      verify_go_skip H ((build_ledger H genesis inputs).take i) genesis 0 _ hchtake, hlen,
      Nat.zero_add]
  rw [hverify, ← hprev]
  have hmain := verify_go_tampered_head H hinj u ((build_ledger H genesis inputs).get ⟨i, hi⟩)
    ((build_ledger H genesis inputs).drop (i + 1)) i hchange hhash
  cases hmain with
  | inl h => exact ⟨by rw [h], Or.inl (by rw [h])⟩
  | inr h => exact ⟨by rw [h], Or.inr (by rw [h])⟩

theorem claim_C2_witness :
    (verify_integrity hval_hash HVal.genesis
      (mutate_at (FieldUpdate.set_conclusion "TAMPERED") 0
        (build_ledger hval_hash HVal.genesis [inpA, inpB]))).1 = false ∧
    ((verify_integrity hval_hash HVal.genesis
      (mutate_at (FieldUpdate.set_conclusion "TAMPERED") 0
        (build_ledger hval_hash HVal.genesis [inpA, inpB]))).2 =
        "Chain broken at record " ++ toString 0 ∨
     (verify_integrity hval_hash HVal.genesis
      (mutate_at (FieldUpdate.set_conclusion "TAMPERED") 0
        (build_ledger hval_hash HVal.genesis [inpA, inpB]))).2 =
        "Record " ++ toString 0 ++ " hash mismatch - content tampered") :=
  claim_C2_tamper_detected HVal hval_hash HVal.genesis hval_hash_injective
    [inpA, inpB] 0 (FieldUpdate.set_conclusion "TAMPERED") (by decide) (by decide)

/-! ## Pipeline branch characterizations -/

/-- `FrankensteinCore.is_override_active`. -/
def is_override_active {Hash : Type} (st : CoreState Hash) : Bool :=
  st.override_active

theorem process_command_accept {Hash : Type} [DecidableEq Hash]
    (H : RecordData Hash → Hash) (genesis : Hash) (st : CoreState Hash)
    (command source ts ts2 : String) (eng : EngineState)
    (h : (validate_against_axioms command).1 = true)
    (hadd : add_proposition st.contradiction_engine
      ⟨sanitize_source source ++ "_" ++ ts, command, sanitize_source source, ts, 100⟩ =
        (none, eng)) :
    process_command H genesis st command source ts ts2 =
      ((true, "Command accepted: " ++ command),
       { st with
           proof_ledger := ledger_append H genesis st.proof_ledger
             ⟨ts2, [command], ["Axiom validation: PASS", "Contradiction check: PASS"],
              "ACCEPTED", none⟩,
           contradiction_engine := eng }) := by
  have hfalse : ¬((validate_against_axioms command).1 = false) := by
    rw [h]
    simp
  simp only [process_command]
  rw [if_neg hfalse, hadd]

theorem process_command_refuse {Hash : Type} [DecidableEq Hash]
    (H : RecordData Hash → Hash) (genesis : Hash) (st : CoreState Hash)
    (command source ts ts2 : String) (c : Contradiction) (eng : EngineState)
    (h : (validate_against_axioms command).1 = true)
    (hadd : add_proposition st.contradiction_engine
      ⟨sanitize_source source ++ "_" ++ ts, command, sanitize_source source, ts, 100⟩ =
        (some c, eng)) :
    process_command H genesis st command source ts ts2 =
      ((false, generate_refusal c),
       { proof_ledger := ledger_append H genesis st.proof_ledger
           ⟨ts2, [command], ["Contradiction detection", "Type: " ++ c.type.value],
            "REFUSED", some (generate_refusal c)⟩,
         contradiction_engine := eng,
         override_active :=
           if contradiction_threshold ≤ c.severity then true else st.override_active }) := by
  have hfalse : ¬((validate_against_axioms command).1 = false) := by
    rw [h]
    simp
  simp only [process_command]
  rw [if_neg hfalse, hadd]

theorem process_command_override_mono {Hash : Type} [DecidableEq Hash]
    (H : RecordData Hash → Hash) (genesis : Hash) (st : CoreState Hash)
    (command source ts ts2 : String) (h : st.override_active = true) :
    (process_command H genesis st command source ts ts2).2.override_active = true := by
  simp only [process_command]
  split
  · simpa using h
  · split
    · rename_i c eng heq
      simp only
      split
      · rfl
      · simpa using h
    · simpa using h

/-- A freshly constructed core over the concrete hash domain, used by
closed witnesses. -/
def core0 : CoreState HVal := init_core hval_hash HVal.genesis "t0"

/-- The survival contradiction produced for `"maximize profit at all
costs"` submitted by `"user"` at timestamp `"t1"`. -/
def c_survival : Contradiction :=
  ⟨.SURVIVAL, [⟨"user_t1", "maximize profit at all costs", "user", "t1", 100⟩],
   "Violates survival axiom: \x27maximize profit at all costs\x27 optimizes for extraction over collective stability",
   80⟩

/-- A core state whose override flag is already set, used by closed
witnesses. -/
def core_overridden : CoreState HVal := ⟨[], EngineState.init, true⟩

/-- C3: when a submitted statement (one that passes the axiom gate)
produces a contradiction of severity at least the 0.7 threshold (70
hundredths), the override flag is true after that call; and once the flag
is true, it stays true across any sequence of later `process_command`
calls — no operation of the pipeline resets it. -/
theorem claim_C3_override_sticky (Hash : Type) [DecidableEq Hash]
    (H : RecordData Hash → Hash) (genesis : Hash) :
    (∀ (st : CoreState Hash) (command source ts ts2 : String) (c : Contradiction),
      (validate_against_axioms command).1 = true →
      (add_proposition st.contradiction_engine
        ⟨sanitize_source source ++ "_" ++ ts, command, sanitize_source source, ts, 100⟩).1 =
          some c →
      contradiction_threshold ≤ c.severity →
      is_override_active (process_command H genesis st command source ts ts2).2 = true) ∧
    (∀ st : CoreState Hash, is_override_active st = true →
      ∀ cmds : List CommandInput,
        is_override_active (process_many H genesis st cmds) = true) := by
  constructor
  · intro st command source ts ts2 c hax hadd hsev
    rcases hp : add_proposition st.contradiction_engine
      ⟨sanitize_source source ++ "_" ++ ts, command, sanitize_source source, ts, 100⟩ with
      ⟨o, eng⟩
    rw [hp] at hadd
    simp only at hadd
    subst hadd
    rw [is_override_active, process_command_refuse H genesis st command source ts ts2 c eng hax hp]
    simp [hsev]
  · intro st h cmds
    induction cmds generalizing st with
    | nil => exact h
    | cons q rest ih =>
      exact ih _ (process_command_override_mono H genesis st q.command q.source q.ts q.ts2 h)

theorem claim_C3_witness :
    is_override_active
      (process_command hval_hash HVal.genesis core0
        "maximize profit at all costs" "user" "t1" "t2").2 = true ∧
    is_override_active
      (process_many hval_hash HVal.genesis core_overridden
        [⟨"the company builds trust", "user", "t3", "t4"⟩]) = true :=
  ⟨(claim_C3_override_sticky HVal hval_hash HVal.genesis).1 core0
      "maximize profit at all costs" "user" "t1" "t2" c_survival
      (by decide) (by decide) (by decide),
   (claim_C3_override_sticky HVal hval_hash HVal.genesis).2 core_overridden (by decide)
      [⟨"the company builds trust", "user", "t3", "t4"⟩]⟩

/-- C5: validation results other than TRUE are never persisted by
`add_validated_fact` (the knowledge base is unchanged), the seeded
knowledge base carries only TRUE judgments, persistence preserves the
all-TRUE invariant, and the engine's truth check leaves the validator
untouched on UNKNOWN or FALSE results. -/
theorem claim_C5_kb_write_discipline :
    (∀ (tv : TruthValidator) (stmt : String) (v : ValidationResponse),
      v.result ≠ ValidationResult.TRUE → add_validated_fact tv stmt v = tv) ∧
    (∀ e ∈ load_core_facts, e.2.result = ValidationResult.TRUE) ∧
    (∀ tv : TruthValidator,
      (∀ e ∈ tv.established_facts, e.2.result = ValidationResult.TRUE) →
      ∀ (stmt : String) (v : ValidationResponse),
        ∀ e ∈ (add_validated_fact tv stmt v).established_facts,
          e.2.result = ValidationResult.TRUE) ∧
    (∀ (eng : EngineState) (prop : Proposition),
      ((validate_statement eng.truth_validator prop.content).result = ValidationResult.UNKNOWN ∨
       (validate_statement eng.truth_validator prop.content).result = ValidationResult.FALSE) →
      (check_truth_violation eng prop).2 = eng.truth_validator) := by
  refine ⟨?_, ?_, ?_, ?_⟩
  · intro tv stmt v h
    simp [add_validated_fact, h]
  · decide
  · intro tv hall stmt v e he
    by_cases hres : v.result = ValidationResult.TRUE
    · rw [add_validated_fact, if_neg (by simp [hres])] at he
      simp only [factsInsert] at he
      split at he
      · obtain ⟨a, ha, hae⟩ := List.mem_map.mp he
        by_cases hk : a.1 = normalize_to_key (pyLower stmt)
        · rw [if_pos hk] at hae
          rw [← hae]
          exact hres
        · rw [if_neg hk] at hae
          rw [← hae]
          exact hall a ha
      · rcases List.mem_append.mp he with hmem | hmem
        · exact hall e hmem
        · rw [List.mem_singleton.mp hmem]
          exact hres
    · rw [add_validated_fact, if_pos hres] at he
      exact hall e he
  · intro eng prop h
    rcases h with h | h
    · simp [check_truth_violation, h]
    · simp [check_truth_violation, h]

theorem claim_C5_witness :
    add_validated_fact TruthValidator.init "hello there"
      ⟨ValidationResult.UNKNOWN, 10,
       "LLM validation unavailable - using rule-based validation only", ["no_llm"]⟩ =
      TruthValidator.init ∧
    (check_truth_violation EngineState.init
      ⟨"user_t1", "hello there", "user", "t1", 100⟩).2 =
      EngineState.init.truth_validator :=
  ⟨claim_C5_kb_write_discipline.1 TruthValidator.init "hello there"
      ⟨ValidationResult.UNKNOWN, 10,
       "LLM validation unavailable - using rule-based validation only", ["no_llm"]⟩ (by decide),
   claim_C5_kb_write_discipline.2.2.2 EngineState.init
      ⟨"user_t1", "hello there", "user", "t1", 100⟩ (Or.inl (by decide))⟩

theorem dropWhile_whitespace_replicate_space (n : Nat) :
    (List.replicate n ' ').dropWhile Char.isWhitespace = [] := by
  induction n with
  | zero => rfl
  | succ m ih => simp [List.replicate_succ, List.dropWhile_cons, ih]

/-- A whitespace-only string longer than the 10,000-character bound. -/
def long_blank : String := ⟨List.replicate 10001 ' '⟩

theorem pyStrip_long_blank : pyStrip long_blank = "" := by
  unfold pyStrip
  rw [show long_blank.data = List.replicate 10001 ' ' from rfl,
    dropWhile_whitespace_replicate_space]
  rfl

/-- C6 counterexample: a string of 10,001 spaces has length exceeding
10,000, yet the axiom gate fails it with the empty-statement reason, not
the too-long reason — refuting "fails with a too-long reason iff the
length of s exceeds 10,000 characters". The empty check runs first. -/
theorem claim_C6_counterexample :
    10000 < long_blank.length ∧
    validate_against_axioms long_blank = (false, "Empty proposition violates identity") ∧
    validate_against_axioms long_blank ≠ (false, "Proposition too long") := by
  have hlen : long_blank.length = 10001 := by
    rw [show long_blank.length = (List.replicate 10001 ' ').length from rfl,
      List.length_replicate]
  have hval : validate_against_axioms long_blank =
      (false, "Empty proposition violates identity") := by
    simp [validate_against_axioms, pyStrip_long_blank]
  refine ⟨by omega, hval, ?_⟩
  rw [hval]
  simp

/-- C6 amended: the gate fails with the empty-statement reason iff the
trimmed string is empty; it fails with the too-long reason iff the
trimmed string is non-empty AND the length exceeds 10,000 (the empty
check runs first, so an oversized all-whitespace string reports empty);
it succeeds iff the trimmed string is non-empty and the length is at most
10,000 (so a 10,000-character statement passes). The check is a pure
function of the statement text. -/
theorem claim_C6_amended (s : String) :
    (validate_against_axioms s = (false, "Empty proposition violates identity") ↔
      pyStrip s = "") ∧
    (validate_against_axioms s = (false, "Proposition too long") ↔
      (pyStrip s ≠ "" ∧ 10000 < s.length)) ∧
    (validate_against_axioms s = (true, "Passes axiom validation") ↔
      (pyStrip s ≠ "" ∧ s.length ≤ 10000)) := by
  unfold validate_against_axioms
  split_ifs with h1 h2
  · refine ⟨by simp [h1], ?_, ?_⟩
    · simp only [Prod.mk.injEq]
      constructor
      · intro hx
        exact absurd hx.2 (by decide)
      · intro hx
        exact absurd h1 hx.1
    · simp only [Prod.mk.injEq]
      constructor
      · intro hx
        exact absurd hx.1 (by decide)
      · intro hx
        exact absurd h1 hx.1
  · refine ⟨?_, by simp [h1, h2], ?_⟩
    · simp only [Prod.mk.injEq]
      constructor
      · intro hx
        exact absurd hx.2 (by decide)
      · intro hx
        exact absurd hx h1
    · simp only [Prod.mk.injEq]
      constructor
      · intro hx
        exact absurd hx.1 (by decide)
      · intro hx
        omega
  · refine ⟨?_, ?_, by simp [h1]; omega⟩
    · simp only [Prod.mk.injEq]
      constructor
      · intro hx
        exact absurd hx.1 (by decide)
      · intro hx
        exact absurd hx h1
    · simp only [Prod.mk.injEq]
      constructor
      · intro hx
        exact absurd hx.1 (by decide)
      · intro hx
        omega

/-- C10: any statement whose lowercased, stripped, article-removed form
contains "cat", "animal" and "is" is short-circuited to the stored
`cat_is_animal` entry of a fresh validator (TRUE, confidence 1.0), no
matter what else the statement says. -/
theorem claim_C10_core_fact_shortcut (s : String)
    (h1 : pyIn "cat" (strip_articles (pyStrip (pyLower s))) = true)
    (h2 : pyIn "animal" (strip_articles (pyStrip (pyLower s))) = true)
    (h3 : pyIn "is" (strip_articles (pyStrip (pyLower s))) = true) :
    validate_statement TruthValidator.init s =
      ⟨ValidationResult.TRUE, 100, "Cats are mammals, mammals are animals",
       ["biological taxonomy", "scientific classification"]⟩ := by
  have hkey : normalize_to_key (pyStrip (pyLower s)) = "cat_is_animal" := by
    unfold normalize_to_key
    simp [h1, h2, h3]
  simp only [validate_statement]
  rw [hkey]
  rfl

theorem claim_C10_witness :
    validate_statement TruthValidator.init "a cat is not an animal" =
      ⟨ValidationResult.TRUE, 100, "Cats are mammals, mammals are animals",
       ["biological taxonomy", "scientific classification"]⟩ :=
  claim_C10_core_fact_shortcut "a cat is not an animal" (by decide) (by decide) (by decide)

theorem check_direct_severity (eng : EngineState) (prop : Proposition) (c : Contradiction)
    (h : check_direct_contradiction eng prop = some c) : c.severity = 100 := by
  simp only [check_direct_contradiction] at h
  split at h
  · simp only [Option.some.injEq] at h
    subst h
    rfl
  · exact Option.noConfusion h

theorem check_survival_severity (prop : Proposition) (c : Contradiction)
    (h : check_survival_violation prop = some c) : c.severity = 80 ∨ c.severity = 90 := by
  simp only [check_survival_violation] at h
  split_ifs at h
  · simp only [Option.some.injEq] at h
    subst h
    left
    rfl
  · simp only [Option.some.injEq] at h
    subst h
    right
    rfl

theorem check_truth_severity (eng : EngineState) (prop : Proposition) (c : Contradiction)
    (h : (check_truth_violation eng prop).1 = some c) :
    c.severity = 95 ∨ c.severity = 100 := by
  simp only [check_truth_violation] at h
  split_ifs at h <;>
    first
      | (simp only [Option.some.injEq] at h
         subst h
         first
           | (left; rfl)
           | (right; rfl))
      | simp at h

theorem add_proposition_severity (eng : EngineState) (prop : Proposition) (c : Contradiction)
    (h : (add_proposition eng prop).1 = some c) :
    c.severity = 100 ∨ c.severity = 95 ∨ c.severity = 90 ∨ c.severity = 80 := by
  simp only [add_proposition] at h
  split at h
  · rename_i c1 heq
    simp only [Option.some.injEq] at h
    subst h
    exact Or.inl (check_direct_severity eng prop c1 heq)
  · split at h
    · rename_i c2 heq
      simp only [Option.some.injEq] at h
      subst h
      rcases check_survival_severity prop c2 heq with h80 | h90
      · exact Or.inr (Or.inr (Or.inr h80))
      · exact Or.inr (Or.inr (Or.inl h90))
    · split at h
      · rename_i c3 tv heq
        simp only [Option.some.injEq] at h
        subst h
        rcases check_truth_severity eng prop c3 (by rw [heq]) with h95 | h100
        · exact Or.inr (Or.inl h95)
        · exact Or.inl h100
      · simp at h

/-- C9: every contradiction the engine returns has severity in
{1.0, 0.95, 0.9, 0.8} (hundredths: 100, 95, 90, 80), hence at least 0.8;
consequently every engine-caused refusal clears the pipeline's 0.7
threshold and sets the override flag. -/
theorem claim_C9_severity_floor :
    (∀ (eng : EngineState) (prop : Proposition) (c : Contradiction),
      (add_proposition eng prop).1 = some c →
      ((c.severity = 100 ∨ c.severity = 95 ∨ c.severity = 90 ∨ c.severity = 80) ∧
        80 ≤ c.severity ∧ contradiction_threshold ≤ c.severity)) ∧
    (∀ (Hash : Type) [DecidableEq Hash] (H : RecordData Hash → Hash) (genesis : Hash)
      (st : CoreState Hash) (command source ts ts2 : String) (c : Contradiction),
      (validate_against_axioms command).1 = true →
      (add_proposition st.contradiction_engine
        ⟨sanitize_source source ++ "_" ++ ts, command, sanitize_source source, ts, 100⟩).1 =
          some c →
      is_override_active (process_command H genesis st command source ts ts2).2 = true) := by
  constructor
  · intro eng prop c h
    have hsev := add_proposition_severity eng prop c h
    refine ⟨hsev, ?_, ?_⟩
    · rcases hsev with h | h | h | h <;> omega
    · rw [contradiction_threshold]
      rcases hsev with h | h | h | h <;> omega
  · intro Hash _ H genesis st command source ts ts2 c hax hadd
    rcases hp : add_proposition st.contradiction_engine
      ⟨sanitize_source source ++ "_" ++ ts, command, sanitize_source source, ts, 100⟩ with
      ⟨o, eng⟩
    rw [hp] at hadd
    simp only at hadd
    subst hadd
    have hsev := add_proposition_severity st.contradiction_engine
      ⟨sanitize_source source ++ "_" ++ ts, command, sanitize_source source, ts, 100⟩ c
      (by rw [hp])
    have hth : contradiction_threshold ≤ c.severity := by
      rw [contradiction_threshold]
      rcases hsev with h | h | h | h <;> omega
    rw [is_override_active,
      process_command_refuse H genesis st command source ts ts2 c eng hax hp]
    simp [hth]

/-- The survival contradiction for the C9 witness run. -/
def c_survival5 : Contradiction :=
  ⟨.SURVIVAL, [⟨"user_t5", "maximize profit at all costs", "user", "t5", 100⟩],
   "Violates survival axiom: 'maximize profit at all costs' optimizes for extraction over collective stability",
   80⟩

theorem claim_C9_witness :
    ((c_survival5.severity = 100 ∨ c_survival5.severity = 95 ∨ c_survival5.severity = 90 ∨
        c_survival5.severity = 80) ∧ 80 ≤ c_survival5.severity ∧
        contradiction_threshold ≤ c_survival5.severity) ∧
    is_override_active (process_command hval_hash HVal.genesis core0
      "maximize profit at all costs" "user" "t5" "t6").2 = true :=
  ⟨claim_C9_severity_floor.1 EngineState.init
      ⟨"user_t5", "maximize profit at all costs", "user", "t5", 100⟩ c_survival5 (by decide),
   claim_C9_severity_floor.2 HVal hval_hash HVal.genesis core0
      "maximize profit at all costs" "user" "t5" "t6" c_survival5 (by decide) (by decide)⟩

/-- C4 counterexample: on a freshly initialized system (which logs an
initialization record), submitting "cats are animals" is accepted, but
the ledger then has length 2 — not 1 — and the first history entry's
conclusion is the initialization message, not "Accepted" (the decision
record says "ACCEPTED" and sits at index 1). -/
theorem claim_C4_counterexample :
    (process_command hval_hash HVal.genesis (init_core hval_hash HVal.genesis "t0")
      "cats are animals" "user" "t1" "t2").1.1 = true ∧
    (process_command hval_hash HVal.genesis (init_core hval_hash HVal.genesis "t0")
      "cats are animals" "user" "t1" "t2").2.proof_ledger.length = 2 ∧
    (process_command hval_hash HVal.genesis (init_core hval_hash HVal.genesis "t0")
      "cats are animals" "user" "t1" "t2").2.proof_ledger.length ≠ 1 ∧
    ((process_command hval_hash HVal.genesis (init_core hval_hash HVal.genesis "t0")
      "cats are animals" "user" "t1" "t2").2.proof_ledger.get ⟨0, by decide⟩).conclusion =
      "Frankenstein Core initialized - Logic is master" ∧
    "Frankenstein Core initialized - Logic is master" ≠ "Accepted" := by
  decide

/-! ## Engine-step decomposition

Closed string computations are settled by kernel evaluation; these
structural lemmas glue them to the open (timestamp-carrying) pipeline
states. -/

theorem check_direct_contradiction_nil (eng : EngineState) (p : Proposition)
    (h : eng.known_propositions = []) :
    check_direct_contradiction eng p = none := by
  simp [check_direct_contradiction, h]

theorem check_direct_contradiction_single (eng : EngineState) (p q : Proposition)
    (h : eng.known_propositions = [q])
    (hneg : is_negation (pyLower p.content) (pyLower q.content) = false) :
    check_direct_contradiction eng p = none := by
  simp only [check_direct_contradiction, h]
  rw [List.find?_cons_of_neg]
  · simp
  · simp [hneg]

theorem check_survival_violation_none (p : Proposition)
    (hg : greed_patterns.any (fun pat => pyIn pat (pyLower p.content)) = false)
    (hd : destabilize_patterns.any (fun pat => pyIn pat (pyLower p.content)) = false) :
    check_survival_violation p = none := by
  simp [check_survival_violation, hg, hd]

theorem check_truth_violation_of_unknown (eng : EngineState) (p : Proposition)
    (v : ValidationResponse)
    (hv : validate_statement eng.truth_validator p.content = v)
    (hres : v.result = ValidationResult.UNKNOWN) :
    check_truth_violation eng p = (none, eng.truth_validator) := by
  simp [check_truth_violation, hv, hres]

theorem check_truth_violation_of_true (eng : EngineState) (p : Proposition)
    (v : ValidationResponse)
    (hv : validate_statement eng.truth_validator p.content = v)
    (hres : v.result = ValidationResult.TRUE) :
    check_truth_violation eng p =
      (none, add_validated_fact eng.truth_validator p.content v) := by
  simp [check_truth_violation, hv, hres]

theorem check_truth_violation_of_false (eng : EngineState) (p : Proposition)
    (v : ValidationResponse)
    (hv : validate_statement eng.truth_validator p.content = v)
    (hres : v.result = ValidationResult.FALSE) :
    check_truth_violation eng p =
      (some ⟨.LOGICAL, [p], "Statement is false: " ++ v.reasoning, 95⟩,
       eng.truth_validator) := by
  simp [check_truth_violation, hv, hres]

theorem add_proposition_eq_none (eng : EngineState) (p : Proposition) (tv : TruthValidator)
    (h1 : check_direct_contradiction eng p = none)
    (h2 : check_survival_violation p = none)
    (h3 : check_truth_violation eng p = (none, tv)) :
    add_proposition eng p =
      (none, { eng with known_propositions := eng.known_propositions ++ [p],
                        truth_validator := tv }) := by
  simp [add_proposition, h1, h2, h3]

theorem add_proposition_eq_some (eng : EngineState) (p : Proposition) (c : Contradiction)
    (tv : TruthValidator)
    (h1 : check_direct_contradiction eng p = none)
    (h2 : check_survival_violation p = none)
    (h3 : check_truth_violation eng p = (some c, tv)) :
    add_proposition eng p =
      (some c, { eng with
                   detected_contradictions := eng.detected_contradictions ++ [c],
                   truth_validator := tv }) := by
  simp [add_proposition, h1, h2, h3]

/-- The proposition the C4 scenario submits. -/
def p_cats (ts : String) : Proposition :=
  ⟨sanitize_source "user" ++ "_" ++ ts, "cats are animals", sanitize_source "user", ts, 100⟩

/-- The engine state after the C4 statement is accepted into the known
set (its validation is UNKNOWN, so nothing is persisted). -/
def eng_cats (ts : String) : EngineState := ⟨[p_cats ts], [], TruthValidator.init⟩

/-- The core state after the C4 submission. -/
def state_cats {Hash : Type} [DecidableEq Hash] (H : RecordData Hash → Hash) (genesis : Hash)
    (ts0 ts1 ts2 : String) : CoreState Hash :=
  { init_core H genesis ts0 with
      proof_ledger := ledger_append H genesis (init_core H genesis ts0).proof_ledger
        ⟨ts2, ["cats are animals"], ["Axiom validation: PASS", "Contradiction check: PASS"],
         "ACCEPTED", none⟩,
      contradiction_engine := eng_cats ts1 }

theorem process_cats {Hash : Type} [DecidableEq Hash] (H : RecordData Hash → Hash)
    (genesis : Hash) (ts0 ts1 ts2 : String) :
    process_command H genesis (init_core H genesis ts0) "cats are animals" "user" ts1 ts2 =
      ((true, "Command accepted: cats are animals"), state_cats H genesis ts0 ts1 ts2) := by
  have h3 := check_truth_violation_of_unknown (init_core H genesis ts0).contradiction_engine
    (p_cats ts1) simulate_llm_validation
    (by decide : validate_statement TruthValidator.init "cats are animals" =
      simulate_llm_validation)
    (by decide)
  have hadd : add_proposition (init_core H genesis ts0).contradiction_engine (p_cats ts1) =
      (none, eng_cats ts1) :=
    (add_proposition_eq_none _ _ _ (check_direct_contradiction_nil _ _ rfl)
      (check_survival_violation_none _
        (by decide : greed_patterns.any
          (fun pat => pyIn pat (pyLower "cats are animals")) = false)
        (by decide : destabilize_patterns.any
          (fun pat => pyIn pat (pyLower "cats are animals")) = false)) h3).trans (by rfl)
  exact process_command_accept H genesis (init_core H genesis ts0) "cats are animals" "user"
    ts1 ts2 (eng_cats ts1) (by decide) hadd

/-- C4 amended: for any timestamps, submitting "cats are animals" to a
freshly initialized system is accepted; the ledger then has length 2 (the
initialization record plus the decision record); the second history
entry's conclusion is "ACCEPTED" and the first is the initialization
message. -/
theorem claim_C4_accept_scenario (Hash : Type) [DecidableEq Hash]
    (H : RecordData Hash → Hash) (genesis : Hash) (ts0 ts1 ts2 : String) :
    (process_command H genesis (init_core H genesis ts0)
      "cats are animals" "user" ts1 ts2).1 =
      (true, "Command accepted: cats are animals") ∧
    (process_command H genesis (init_core H genesis ts0)
      "cats are animals" "user" ts1 ts2).2.proof_ledger.length = 2 ∧
    (∀ h1 : 1 < (process_command H genesis (init_core H genesis ts0)
        "cats are animals" "user" ts1 ts2).2.proof_ledger.length,
      ((process_command H genesis (init_core H genesis ts0)
        "cats are animals" "user" ts1 ts2).2.proof_ledger.get ⟨1, h1⟩).conclusion =
        "ACCEPTED") ∧
    (∀ h0 : 0 < (process_command H genesis (init_core H genesis ts0)
        "cats are animals" "user" ts1 ts2).2.proof_ledger.length,
      ((process_command H genesis (init_core H genesis ts0)
        "cats are animals" "user" ts1 ts2).2.proof_ledger.get ⟨0, h0⟩).conclusion =
        "Frankenstein Core initialized - Logic is master") := by
  rw [process_cats H genesis ts0 ts1 ts2]
  exact ⟨rfl, rfl, fun hx => rfl, fun hx => rfl⟩

theorem claim_C4_witness :
    (process_command hval_hash HVal.genesis (init_core hval_hash HVal.genesis "tw0")
      "cats are animals" "user" "tw1" "tw2").1 =
      (true, "Command accepted: cats are animals") ∧
    ((process_command hval_hash HVal.genesis (init_core hval_hash HVal.genesis "tw0")
      "cats are animals" "user" "tw1" "tw2").2.proof_ledger.get ⟨1, by decide⟩).conclusion =
      "ACCEPTED" :=
  ⟨(claim_C4_accept_scenario HVal hval_hash HVal.genesis "tw0" "tw1" "tw2").1,
   (claim_C4_accept_scenario HVal hval_hash HVal.genesis "tw0" "tw1" "tw2").2.2.1 (by decide)⟩

/-- The refusal text the second C7 submission produces. -/
def math_refusal : String :=
  "REFUSAL: Logical contradiction through inference\nReason: Statement is false: 5 + 5 does not equal the stated result\nSeverity: 0.95\n\nCounterexample:\n  1. [user] 5 + 5 = 11\n\nLogic is master. This command violates coherence."

/-- The first proposition the C7 scenario submits. -/
def p_math1 (ts : String) : Proposition :=
  ⟨sanitize_source "user" ++ "_" ++ ts, "5 + 5 = 10", sanitize_source "user", ts, 100⟩

/-- The TRUE validation of "5 + 5 = 10". -/
def v_math : ValidationResponse :=
  ⟨.TRUE, 100, "5 + 5 = 10 is mathematically correct", ["arithmetic"]⟩

/-- The knowledge base after "5 + 5 = 10" is persisted. -/
def tv_math : TruthValidator := ⟨load_core_facts ++ [("5_+_5_=_10", v_math)]⟩

/-- The engine state after the first C7 submission. -/
def eng_math1 (ts : String) : EngineState := ⟨[p_math1 ts], [], tv_math⟩

/-- The core state after the first C7 submission. -/
def state_math1 {Hash : Type} [DecidableEq Hash] (H : RecordData Hash → Hash) (genesis : Hash)
    (ts0 ts1 ts2 : String) : CoreState Hash :=
  { init_core H genesis ts0 with
      proof_ledger := ledger_append H genesis (init_core H genesis ts0).proof_ledger
        ⟨ts2, ["5 + 5 = 10"], ["Axiom validation: PASS", "Contradiction check: PASS"],
         "ACCEPTED", none⟩,
      contradiction_engine := eng_math1 ts1 }

/-- The second proposition the C7 scenario submits. -/
def p_math2 (ts : String) : Proposition :=
  ⟨sanitize_source "user" ++ "_" ++ ts, "5 + 5 = 11", sanitize_source "user", ts, 100⟩

/-- The FALSE validation of "5 + 5 = 11". -/
def v_math_false : ValidationResponse :=
  ⟨.FALSE, 100, "5 + 5 does not equal the stated result", ["arithmetic"]⟩

/-- The logical contradiction the second C7 submission produces. -/
def c_math (ts : String) : Contradiction :=
  ⟨.LOGICAL, [p_math2 ts], "Statement is false: 5 + 5 does not equal the stated result", 95⟩

/-- The engine state after the second C7 submission. -/
def eng_math2 (ts1 ts3 : String) : EngineState := ⟨[p_math1 ts1], [c_math ts3], tv_math⟩

/-- The core state after the second C7 submission. -/
def state_math2 {Hash : Type} [DecidableEq Hash] (H : RecordData Hash → Hash) (genesis : Hash)
    (ts0 ts1 ts2 ts3 ts4 : String) : CoreState Hash :=
  { proof_ledger := ledger_append H genesis (state_math1 H genesis ts0 ts1 ts2).proof_ledger
      ⟨ts4, ["5 + 5 = 11"],
       ["Contradiction detection", "Type: Logical contradiction through inference"],
       "REFUSED", some math_refusal⟩,
    contradiction_engine := eng_math2 ts1 ts3,
    override_active := true }

theorem process_math1 {Hash : Type} [DecidableEq Hash] (H : RecordData Hash → Hash)
    (genesis : Hash) (ts0 ts1 ts2 : String) :
    process_command H genesis (init_core H genesis ts0) "5 + 5 = 10" "user" ts1 ts2 =
      ((true, "Command accepted: 5 + 5 = 10"), state_math1 H genesis ts0 ts1 ts2) := by
  have h3 := check_truth_violation_of_true (init_core H genesis ts0).contradiction_engine
    (p_math1 ts1) v_math
    (by decide : validate_statement TruthValidator.init "5 + 5 = 10" = v_math)
    (by decide)
  have heq : add_validated_fact (init_core H genesis ts0).contradiction_engine.truth_validator
      (p_math1 ts1).content v_math = tv_math :=
    (by decide : add_validated_fact TruthValidator.init "5 + 5 = 10" v_math = tv_math)
  rw [heq] at h3
  have hadd : add_proposition (init_core H genesis ts0).contradiction_engine (p_math1 ts1) =
      (none, eng_math1 ts1) :=
    (add_proposition_eq_none _ _ _ (check_direct_contradiction_nil _ _ rfl)
      (check_survival_violation_none _
        (by decide : greed_patterns.any
          (fun pat => pyIn pat (pyLower "5 + 5 = 10")) = false)
        (by decide : destabilize_patterns.any
          (fun pat => pyIn pat (pyLower "5 + 5 = 10")) = false)) h3).trans (by rfl)
  exact process_command_accept H genesis (init_core H genesis ts0) "5 + 5 = 10" "user" ts1 ts2
    (eng_math1 ts1) (by decide) hadd

theorem process_math2 {Hash : Type} [DecidableEq Hash] (H : RecordData Hash → Hash)
    (genesis : Hash) (ts0 ts1 ts2 ts3 ts4 : String) :
    process_command H genesis (state_math1 H genesis ts0 ts1 ts2) "5 + 5 = 11" "user" ts3 ts4 =
      ((false, math_refusal), state_math2 H genesis ts0 ts1 ts2 ts3 ts4) := by
  have h1 : check_direct_contradiction (state_math1 H genesis ts0 ts1 ts2).contradiction_engine
      (p_math2 ts3) = none :=
    check_direct_contradiction_single _ _ (p_math1 ts1) rfl
      (by decide : is_negation (pyLower "5 + 5 = 11") (pyLower "5 + 5 = 10") = false)
  have h3 := check_truth_violation_of_false
    (state_math1 H genesis ts0 ts1 ts2).contradiction_engine
    (p_math2 ts3) v_math_false
    (by decide : validate_statement tv_math "5 + 5 = 11" = v_math_false)
    (by decide)
  have hadd : add_proposition (state_math1 H genesis ts0 ts1 ts2).contradiction_engine
      (p_math2 ts3) = (some (c_math ts3), eng_math2 ts1 ts3) :=
    (add_proposition_eq_some _ _ _ _ h1
      (check_survival_violation_none _
        (by decide : greed_patterns.any
          (fun pat => pyIn pat (pyLower "5 + 5 = 11")) = false)
        (by decide : destabilize_patterns.any
          (fun pat => pyIn pat (pyLower "5 + 5 = 11")) = false)) h3).trans (by rfl)
  exact (process_command_refuse H genesis (state_math1 H genesis ts0 ts1 ts2) "5 + 5 = 11"
    "user" ts3 ts4 (c_math ts3) (eng_math2 ts1 ts3) (by decide) hadd).trans (by rfl)

/-- C7: for any timestamps, submitting "5 + 5 = 10" then "5 + 5 = 11" to
a freshly initialized system accepts the first, refuses the second with a
counterexample whose reason is the mathematical falsehood "5 + 5 does not
equal the stated result", and leaves the contradiction count at exactly
1. The refused decision record carries the rendered refusal as its
counterexample. -/
theorem claim_C7_math_scenario (Hash : Type) [DecidableEq Hash]
    (H : RecordData Hash → Hash) (genesis : Hash) (ts0 ts1 ts2 ts3 ts4 : String) :
    (process_command H genesis (init_core H genesis ts0)
      "5 + 5 = 10" "user" ts1 ts2).1 = (true, "Command accepted: 5 + 5 = 10") ∧
    (process_command H genesis
      (process_command H genesis (init_core H genesis ts0)
        "5 + 5 = 10" "user" ts1 ts2).2
      "5 + 5 = 11" "user" ts3 ts4).1 = (false, math_refusal) ∧
    pyIn "5 + 5 does not equal the stated result" math_refusal = true ∧
    get_contradiction_count
      (process_command H genesis
        (process_command H genesis (init_core H genesis ts0)
          "5 + 5 = 10" "user" ts1 ts2).2
        "5 + 5 = 11" "user" ts3 ts4).2.contradiction_engine = 1 ∧
    (∀ h2 : 2 < (process_command H genesis
        (process_command H genesis (init_core H genesis ts0)
          "5 + 5 = 10" "user" ts1 ts2).2
        "5 + 5 = 11" "user" ts3 ts4).2.proof_ledger.length,
      ((process_command H genesis
        (process_command H genesis (init_core H genesis ts0)
          "5 + 5 = 10" "user" ts1 ts2).2
        "5 + 5 = 11" "user" ts3 ts4).2.proof_ledger.get ⟨2, h2⟩).counterexample =
        some math_refusal) := by
  rw [process_math1 H genesis ts0 ts1 ts2]
  dsimp only
  rw [process_math2 H genesis ts0 ts1 ts2 ts3 ts4]
  exact ⟨rfl, rfl, by decide, rfl, fun hx => rfl⟩

theorem claim_C7_witness :
    (process_command hval_hash HVal.genesis (init_core hval_hash HVal.genesis "tm0")
      "5 + 5 = 10" "user" "tm1" "tm2").1 = (true, "Command accepted: 5 + 5 = 10") ∧
    (process_command hval_hash HVal.genesis
      (process_command hval_hash HVal.genesis (init_core hval_hash HVal.genesis "tm0")
        "5 + 5 = 10" "user" "tm1" "tm2").2
      "5 + 5 = 11" "user" "tm3" "tm4").1 = (false, math_refusal) ∧
    get_contradiction_count
      (process_command hval_hash HVal.genesis
        (process_command hval_hash HVal.genesis (init_core hval_hash HVal.genesis "tm0")
          "5 + 5 = 10" "user" "tm1" "tm2").2
        "5 + 5 = 11" "user" "tm3" "tm4").2.contradiction_engine = 1 :=
  ⟨(claim_C7_math_scenario HVal hval_hash HVal.genesis "tm0" "tm1" "tm2" "tm3" "tm4").1,
   (claim_C7_math_scenario HVal hval_hash HVal.genesis "tm0" "tm1" "tm2" "tm3" "tm4").2.1,
   (claim_C7_math_scenario HVal hval_hash HVal.genesis "tm0" "tm1" "tm2" "tm3" "tm4").2.2.2.1⟩

/-- C8 counterexample: "cats are animals" contains the copula "are", is
not matched in a fresh knowledge base, yet `_parse_statement` classifies
it as `general`, not as a classification split — refuting the claim that
"is" or "are" triggers the classification shape. Only the space-delimited
substring " is " does. -/
theorem claim_C8_counterexample :
    pyIn "are" "cats are animals" = true ∧
    factsLookup (normalize_to_key (pyStrip (pyLower "cats are animals")))
      TruthValidator.init.established_facts = none ∧
    parse_statement "cats are animals" = ParsedStatement.general "cats are animals" := by
  decide

/-- C8 amended: a statement parses as a classification shape iff it
contains the space-delimited copula " is " (the copula "are" is not
recognized), and in that case the subject and predicate come from
splitting on the first occurrence of " is ", each part stripped of
whitespace and of the articles "a " and "an ". -/
theorem claim_C8_copula_classification (s : String) :
    ((∃ subject predicate,
        parse_statement s = ParsedStatement.classification subject predicate) ↔
      pyIn " is " s = true) ∧
    (pyIn " is " s = true →
      parse_statement s = ParsedStatement.classification
        (pyReplace (pyReplace (pyStrip (pySplit1 s " is ").1) "a " "") "an " "")
        (pyReplace (pyReplace (pyStrip (pySplit1 s " is ").2) "a " "") "an " "")) := by
  constructor
  · constructor
    · intro hex
      obtain ⟨subject, predicate, hp⟩ := hex
      by_contra hin
      simp only [parse_statement] at hp
      rw [if_neg (by simpa using hin)] at hp
      split_ifs at hp <;> exact ParsedStatement.noConfusion hp
    · intro hin
      refine ⟨pyReplace (pyReplace (pyStrip (pySplit1 s " is ").1) "a " "") "an " "",
        pyReplace (pyReplace (pyStrip (pySplit1 s " is ").2) "a " "") "an " "", ?_⟩
      simp only [parse_statement]
      rw [if_pos hin]
  · intro hin
    simp only [parse_statement]
    rw [if_pos hin]

theorem claim_C8_witness :
    parse_statement "water is wet" = ParsedStatement.classification "water" "wet" :=
  (claim_C8_copula_classification "water is wet").2 (by decide)

end Frankenstein
